import Mathlib

/-!
Shallow embedding of the agent control core of
`ion/agents/instrumentagents/instrument_agent.py`: the exclusive
transaction (lock) manager, the protected-operation wrapper pattern of the
`op_*` handlers, and the RESET branches of the state handlers together with
the driver lifecycle helpers they call.

Timers (`reactor.callLater`) are modelled as handles carrying a fresh call
id and the requested delay; a timer "fires" as an explicit event, and a
cancelled timer's event is a no-op because its pending entry is gone.
Twisted deferreds created by `_request_transaction` are identified by fresh
natural-number ids; every `d.callback(...)` on a queued deferred is logged
in the `fired` field so that exactly-once resolution is a statement about
that log.
-/

namespace InstrumentAgent

/-- Modelled from the spec: the result-code enumeration `InstErrorCode` of
`ion/agents/instrumentagents/instrument_constants.py`, which is not among
the sources (only its importer `instrument_agent.py` is); the taxonomy is
from spec section 7. -/
inductive InstErrorCode where
  | OK
  | LOCKED_RESOURCE
  | RESOURCE_NOT_LOCKED
  | INVALID_TRANSACTION_ID
  | TIMEOUT
  | INCORRECT_STATE
  | AGENT_INIT_FAILED
  | AGENT_DEINIT_FAILED
  | DRIVER_CONNECT_FAILED
  | DRIVER_DISCONNECT_FAILED
  | INVALID_PARAMETER
  | INVALID_PARAM_VALUE
  | UNKNOWN_COMMAND
  | REQUIRED_PARAMETER
  | NOT_IMPLEMENTED
  | UNKNOWN_ERROR
  | GET_OBSERVATORY_ERR
  deriving DecidableEq

/-- Modelled from the spec: `InstErrorCode.is_ok` of the missing
`instrument_constants.py`; a code is ok exactly when it is `OK`. -/
def InstErrorCode.is_ok : InstErrorCode → Bool
  | InstErrorCode.OK => true
  | _ => false

/-- Modelled from the spec: `InstErrorCode.is_error` of the missing
`instrument_constants.py`; every non-`OK` code is an error. -/
def InstErrorCode.is_error (c : InstErrorCode) : Bool :=
  !c.is_ok

/-- Modelled from the spec: the `AgentState` enumeration of the missing
`instrument_constants.py` (spec section 3). -/
inductive AgentState where
  | POWERED_DOWN
  | UNINITIALIZED
  | INACTIVE
  | IDLE
  | STOPPED
  | OBSERVATORY_MODE
  | DIRECT_ACCESS_MODE
  | UNKNOWN
  deriving DecidableEq

/-- Embedding of a `reactor.callLater` handle: a fresh call id plus the
delay in seconds it was armed for. -/
structure TimerCall where
  call_id : Nat
  delay : Nat
  deriving DecidableEq

/-- Embedding of one entry of `self._pending_transactions`: the tuple
`(d, acq_timeout_call, exp_timeout, requester)` appended by
`_request_transaction`, with the deferred `d` modelled by its id. -/
structure PendingTransaction where
  d : Nat
  acq_timeout_call : TimerCall
  exp_timeout : Nat
  requester : String
  deriving DecidableEq

/-- Embedding of the transaction-management state of an `InstrumentAgent`
instance as set up by `plc_init` (fields keep their source names without
the underscore prefix).  `next_call_id`, `next_uuid` and `next_deferred`
model the fresh supplies of timer handles, `uuid4()` tokens and deferreds;
`enqueued` records every deferred id ever appended to
`pending_transactions` and `fired` logs every `d.callback((success, tid))`
performed on a queued deferred. -/
structure AgentTM where
  transaction_id : Option String := none
  transaction_timed_out : Bool := false
  transaction_timeout_call : Option TimerCall := none
  pending_transactions : List PendingTransaction := []
  max_acq_timeout : Nat := 60
  min_exp_timeout : Nat := 1
  default_exp_timeout : Nat := 300
  max_exp_timeout : Nat := 1800
  in_protected_function : Bool := false
  next_call_id : Nat := 0
  next_uuid : Nat := 0
  next_deferred : Nat := 0
  enqueued : List Nat := []
  fired : List (Nat × InstErrorCode × Option String) := []
  deriving DecidableEq

/-- State of a freshly initialized agent (`plc_init` defaults). -/
def initTM : AgentTM := {}

/-- Embedding of `str(uuid4())`: the n-th token of the uuid supply,
rendered as a 36-character string (the digits of `n` in positions
filled with base-10 digits). -/
def uuid_str (n : Nat) : String :=
  String.mk ((List.range 36).map fun i => Char.ofNat (48 + n / 10 ^ i % 10))

/-- Embedding of the expiration-timeout clamp shared by
`_start_transaction` and `_request_transaction`: `None` becomes the
default, values above `_max_exp_timeout` and below `_min_exp_timeout` are
clamped. -/
def clamp_exp (s : AgentTM) : Option Nat → Nat
  | none => s.default_exp_timeout
  | some e =>
    if e > s.max_exp_timeout then s.max_exp_timeout
    else if e < s.min_exp_timeout then s.min_exp_timeout
    else e

/-- Embedding of the acquisition-timeout clamp of `_request_transaction`:
`None` becomes 0 (no wait), values above `_max_acq_timeout` are clamped. -/
def clamp_acq (s : AgentTM) : Option Nat → Nat
  | none => 0
  | some a => if a > s.max_acq_timeout then s.max_acq_timeout else a

/-- Helper modelling `d.callback((success, tid))` on the queued deferred
with id `d`: the resolution is appended to the `fired` log. -/
def fire (s : AgentTM) (d : Nat) (c : InstErrorCode) (t : Option String) : AgentTM :=
  { s with fired := s.fired ++ [(d, c, t)] }

/-- Embedding of `InstrumentAgent._start_transaction` (instrument_agent.py
lines 843-893): clamp the expiration timeout; if no transaction is current
generate a fresh token, arm the expiration timer and return `(OK, token)`,
otherwise return `(LOCKED_RESOURCE, None)`. -/
def start_transaction (exp_timeout : Option Nat) (s : AgentTM) :
    AgentTM × InstErrorCode × Option String :=
  let exp := clamp_exp s exp_timeout
  match s.transaction_id with
  | none =>
    ({ s with
        transaction_id := some (uuid_str s.next_uuid)
        next_uuid := s.next_uuid + 1
        transaction_timeout_call := some ⟨s.next_call_id, exp⟩
        next_call_id := s.next_call_id + 1 },
      InstErrorCode.OK, some (uuid_str s.next_uuid))
  | some _ => (s, InstErrorCode.LOCKED_RESOURCE, none)

/-- Outcome of `_request_transaction`: either the returned deferred was
resolved synchronously with `(success, tid)`, or it was enqueued as the
pending acquisition with deferred id `d` to be resolved later. -/
inductive ReqOutcome where
  | immediate (success : InstErrorCode) (tid : Option String)
  | deferredAcq (d : Nat)
  deriving DecidableEq

/-- Embedding of `InstrumentAgent._request_transaction` (instrument_agent.py
lines 895-966): clamp both timeouts; grant immediately when free; reply
`(LOCKED_RESOURCE, None)` immediately when locked and the clamped
acquisition timeout is 0; otherwise append a pending acquisition with a
fresh deferred and an armed acquisition timer. -/
def request_transaction (acq_timeout exp_timeout : Option Nat) (requester : String)
    (s : AgentTM) : AgentTM × ReqOutcome :=
  match s.transaction_id with
  | none =>
    let r := start_transaction (some (clamp_exp s exp_timeout)) s
    (r.1, ReqOutcome.immediate r.2.1 r.2.2)
  | some _ =>
    if clamp_acq s acq_timeout = 0 then
      (s, ReqOutcome.immediate InstErrorCode.LOCKED_RESOURCE none)
    else
      ({ s with
          pending_transactions := s.pending_transactions ++
            [⟨s.next_deferred, ⟨s.next_call_id, clamp_acq s acq_timeout⟩,
              clamp_exp s exp_timeout, requester⟩]
          next_call_id := s.next_call_id + 1
          next_deferred := s.next_deferred + 1
          enqueued := s.enqueued ++ [s.next_deferred] },
        ReqOutcome.deferredAcq s.next_deferred)

/-- Embedding of `InstrumentAgent._end_transaction` (instrument_agent.py
lines 1002-1048).  On a token match the transaction is cleared, the
deferred-expiry flag reset, the expiration timer cancelled, and the head
pending acquisition (if any) popped, its acquisition timer cancelled, a
new transaction started with its stored expiration timeout and its
deferred resolved with the result. -/
def end_transaction (tid : String) (s : AgentTM) : AgentTM × InstErrorCode :=
  match s.transaction_id with
  | some cur =>
    if tid = cur then
      let s1 := { s with
        transaction_id := none
        transaction_timed_out := false
        transaction_timeout_call := none }
      match s1.pending_transactions with
      | [] => (s1, InstErrorCode.OK)
      | p :: rest =>
        let r := start_transaction (some p.exp_timeout)
          { s1 with pending_transactions := rest }
        (fire r.1 p.d r.2.1 r.2.2, InstErrorCode.OK)
    else (s, InstErrorCode.LOCKED_RESOURCE)
  | none => (s, InstErrorCode.RESOURCE_NOT_LOCKED)

/-- Helper mirroring the removal loop of the `acquisition_timeout`
callback in `_request_transaction`: remove the first pending entry whose
deferred id is `d`, reporting whether one was found. -/
def remove_pending (d : Nat) : List PendingTransaction → List PendingTransaction × Bool
  | [] => ([], false)
  | item :: rest =>
    if item.d = d then (rest, true)
    else
      let r := remove_pending d rest
      (item :: r.1, r.2)

/-- Embedding of the `acquisition_timeout` timer callback created by
`_request_transaction` (instrument_agent.py lines 951-958) for the pending
acquisition with deferred id `d`: if the entry is still queued, remove it
and resolve the deferred with `(TIMEOUT, None)`; a timer whose entry was
already granted (and hence cancelled) does nothing. -/
def acquisition_timeout (d : Nat) (s : AgentTM) : AgentTM :=
  if (remove_pending d s.pending_transactions).2 then
    fire { s with pending_transactions := (remove_pending d s.pending_transactions).1 }
      d InstErrorCode.TIMEOUT none
  else s

/-- Embedding of the `transaction_expired` timer callback created by
`_start_transaction` (instrument_agent.py lines 870-887): when the armed
expiration timer fires, clear the timer handle; if a protected operation
is executing only set the deferred-expiry flag, otherwise end the current
transaction immediately via `_end_transaction`. -/
def transaction_expired (s : AgentTM) : AgentTM :=
  match s.transaction_timeout_call with
  | none => s
  | some _ =>
    if s.in_protected_function then
      { s with transaction_timeout_call := none, transaction_timed_out := true }
    else
      match s.transaction_id with
      | some cur => (end_transaction cur { s with transaction_timeout_call := none }).1
      | none => { s with transaction_timeout_call := none }

/-- Embedding of the unconditional cleanup step shared by every `op_*`
finally block (for example instrument_agent.py lines 1341-1344): if the
request token was `'create'` or the deferred-expiry flag is set, end the
current transaction, then clear the in-protected-function flag.  (With no
current transaction the Python call `_end_transaction(None)` would fail
its isinstance assert; that path is unreachable in the reachable states
this is applied to, and is modelled as a no-op.) -/
def transaction_cleanup (tid : String) (s : AgentTM) : AgentTM :=
  let s1 :=
    if tid = "create" ∨ s.transaction_timed_out then
      match s.transaction_id with
      | some cur => (end_transaction cur s).1
      | none => s
    else s
  { s1 with in_protected_function := false }

/-- Embedding of `InstrumentAgent._verify_transaction` (instrument_agent.py
lines 1050-1099), without the best-effort error publication. -/
def verify_transaction (tid optype : String) (s : AgentTM) : AgentTM × InstErrorCode :=
  if tid ≠ "create" ∧ tid ≠ "none" ∧ tid.length ≠ 36 then
    (s, InstErrorCode.INVALID_TRANSACTION_ID)
  else if tid = "create" then
    let r := start_transaction (some s.default_exp_timeout) s
    if r.2.1.is_ok then (r.1, InstErrorCode.OK)
    else (r.1, InstErrorCode.LOCKED_RESOURCE)
  else if tid = "none" ∧ s.transaction_id = none ∧ optype = "get" then
    (s, InstErrorCode.OK)
  else if s.transaction_id = some tid then
    (s, InstErrorCode.OK)
  else
    (s, InstErrorCode.LOCKED_RESOURCE)

/-- Events driving the transaction manager: the two public calls and the
firings of the two kinds of timers. -/
inductive TMEvent where
  | request (acq_timeout exp_timeout : Option Nat) (requester : String)
  | endTxn (tid : String)
  | acqFires (d : Nat)
  | expFires
  deriving DecidableEq

/-- One transaction-manager step. -/
def tm_step (s : AgentTM) (e : TMEvent) : AgentTM :=
  match e with
  | TMEvent.request a x r => (request_transaction a x r s).1
  | TMEvent.endTxn t => (end_transaction t s).1
  | TMEvent.acqFires d => acquisition_timeout d s
  | TMEvent.expFires => transaction_expired s

/-- Run a sequence of transaction-manager events from the initial state. -/
def tm_run (events : List TMEvent) : AgentTM :=
  events.foldl tm_step initTM

/-- Deferred ids of the queued pending acquisitions, in FIFO order. -/
def pending_ids (s : AgentTM) : List Nat :=
  s.pending_transactions.map (fun p => p.d)

/-- Deferred ids that have been resolved (callback already invoked). -/
def fired_ids (s : AgentTM) : List Nat :=
  s.fired.map (fun r => r.1)

/-- Reply dict of an `op_*` handler, initialized to
`{'success': None, 'result': None, 'transaction_id': None}`; a `none`
success models the Python `None` left in place when no branch assigns it. -/
structure OpReply where
  success : Option InstErrorCode := none
  result : Option String := none
  transaction_id : Option String := none
  deriving DecidableEq

/-- Outcome of an operation-specific body: either it returns a result code
and payload in state `s`, or it raises an unexpected exception leaving
state `s`. -/
inductive BodyOutcome where
  | ok (success : InstErrorCode) (result : Option String) (s : AgentTM)
  | exn (s : AgentTM)

/-- Outcome of a whole `op_*` handler: the reply message sent via
`reply_ok` (or `none` when the handler terminated without replying), a
flag recording whether an exception escaped to the messaging layer, and
the final agent state. -/
structure OpOutcome where
  reply : Option OpReply
  raised : Bool
  state : AgentTM

/-- Embedding of `InstrumentAgent.op_execute_observatory`
(instrument_agent.py lines 1112-1218) with the operation-specific body
abstracted.  The handler sets the in-protected-function flag, verifies the
transaction, and on verify failure replies immediately (the early
`return` bypasses the finally cleanup, so the flag stays set).  A body
exception hits `except: success = UNKNOWN_ERROR; raise`: the finally
cleanup runs but the re-raise prevents the trailing `reply_ok`.  The
reply's `result` field is never assigned in this handler. -/
def op_execute_observatory (tid : String) (body : AgentTM → BodyOutcome)
    (s0 : AgentTM) : OpOutcome :=
  let s1 := { s0 with in_protected_function := true }
  let v := verify_transaction tid "execute" s1
  if v.2.is_error then
    { reply := some { success := some v.2 }, raised := false, state := v.1 }
  else
    let rtid := v.1.transaction_id
    match body v.1 with
    | BodyOutcome.ok bsucc _ s3 =>
      { reply := some { success := some bsucc, transaction_id := rtid },
        raised := false, state := transaction_cleanup tid s3 }
    | BodyOutcome.exn s3 =>
      { reply := none, raised := true, state := transaction_cleanup tid s3 }

/-- Embedding of `InstrumentAgent.op_get_device` (instrument_agent.py
lines 2002-2083) with the driver call abstracted as `body`.  After a
successful verify, a state outside {OBSERVATORY_MODE, IDLE, STOPPED}
replies INCORRECT_STATE through an early `return` that bypasses the
finally cleanup (flag left set, implicit transaction left current).  A
body exception re-raises after cleanup, so no reply is sent. -/
def op_get_device (tid : String) (agent_state : AgentState)
    (body : AgentTM → BodyOutcome) (s0 : AgentTM) : OpOutcome :=
  let s1 := { s0 with in_protected_function := true }
  let v := verify_transaction tid "get" s1
  if v.2.is_error then
    { reply := some { success := some v.2 }, raised := false, state := v.1 }
  else
    let rtid := v.1.transaction_id
    if agent_state ≠ AgentState.OBSERVATORY_MODE ∧ agent_state ≠ AgentState.IDLE ∧
        agent_state ≠ AgentState.STOPPED then
      { reply := some { success := some InstErrorCode.INCORRECT_STATE, transaction_id := rtid },
        raised := false, state := v.1 }
    else
      match body v.1 with
      | BodyOutcome.ok bsucc bres s3 =>
        { reply := some { success := some bsucc, result := bres, transaction_id := rtid },
          raised := false, state := transaction_cleanup tid s3 }
      | BodyOutcome.exn s3 =>
        { reply := none, raised := true, state := transaction_cleanup tid s3 }

/-- Embedding of `InstrumentAgent.op_get_device_metadata`
(instrument_agent.py lines 2239-2319).  Unlike the other device handlers
its except clause does not re-raise: on a body exception the local
`success` becomes UNKNOWN_ERROR (used only for the error publication) but
the `else` branch that would copy it into the reply is skipped, so the
reply is still sent with its initial `None` success. -/
def op_get_device_metadata (tid : String) (agent_state : AgentState)
    (body : AgentTM → BodyOutcome) (s0 : AgentTM) : OpOutcome :=
  let s1 := { s0 with in_protected_function := true }
  let v := verify_transaction tid "get" s1
  if v.2.is_error then
    { reply := some { success := some v.2 }, raised := false, state := v.1 }
  else
    let rtid := v.1.transaction_id
    if agent_state ≠ AgentState.OBSERVATORY_MODE ∧ agent_state ≠ AgentState.IDLE ∧
        agent_state ≠ AgentState.STOPPED then
      { reply := some { success := some InstErrorCode.INCORRECT_STATE, transaction_id := rtid },
        raised := false, state := v.1 }
    else
      match body v.1 with
      | BodyOutcome.ok bsucc bres s3 =>
        { reply := some { success := some bsucc, result := bres, transaction_id := rtid },
          raised := false, state := transaction_cleanup tid s3 }
      | BodyOutcome.exn s3 =>
        { reply := some { success := none, transaction_id := rtid },
          raised := false, state := transaction_cleanup tid s3 }

/-- Driver lifecycle supervisor state: the active driver handle (process
id and client stub, modelled by ids) and the condemned list. -/
structure DriverSup where
  driver_pid : Option Nat := none
  driver_client : Option Nat := none
  condemned_drivers : List Nat := []
  deriving DecidableEq

/-- Embedding of `InstrumentAgent._condemn_driver` (instrument_agent.py
lines 2576-2585): if a driver is active, append its pid to the condemned
list and clear both the pid and the client; otherwise do nothing. -/
def condemn_driver (s : DriverSup) : DriverSup :=
  match s.driver_pid with
  | some pid =>
    { s with
        condemned_drivers := s.condemned_drivers ++ [pid]
        driver_pid := none
        driver_client := none }
  | none => s

/-- Outcome of the `self._driver_client.disconnect()` call awaited by the
RESET handlers: a reply dict carrying a success code, or a raised
exception. -/
inductive DisconnectOutcome where
  | reply (success : InstErrorCode)
  | exn
  deriving DecidableEq

/-- Embedding of the RESET branch of
`InstrumentAgent.state_handler_idle` (instrument_agent.py lines 566-587):
returns the handler's (success, next_state) pair and the driver state. -/
def state_handler_idle_reset (disc : DisconnectOutcome) (s : DriverSup) :
    InstErrorCode × Option AgentState × DriverSup :=
  match disc with
  | DisconnectOutcome.exn => (InstErrorCode.DRIVER_CONNECT_FAILED, none, s)
  | DisconnectOutcome.reply success =>
    if success.is_ok then
      let s1 := condemn_driver s
      if s1.driver_pid = none then
        (InstErrorCode.OK, some AgentState.UNINITIALIZED, s1)
      else
        (InstErrorCode.AGENT_DEINIT_FAILED, some AgentState.INACTIVE, s1)
    else (success, none, s)

/-- Embedding of the RESET branch of
`InstrumentAgent.state_handler_stopped` (instrument_agent.py lines
502-523). -/
def state_handler_stopped_reset (disc : DisconnectOutcome) (s : DriverSup) :
    InstErrorCode × Option AgentState × DriverSup :=
  match disc with
  | DisconnectOutcome.exn => (InstErrorCode.DRIVER_CONNECT_FAILED, none, s)
  | DisconnectOutcome.reply success =>
    if success.is_ok then
      let s1 := condemn_driver s
      if s1.driver_pid = none then
        (InstErrorCode.OK, some AgentState.UNINITIALIZED, s1)
      else
        (InstErrorCode.AGENT_DEINIT_FAILED, some AgentState.INACTIVE, s1)
    else (success, none, s)

/-- Embedding of the RESET branch of
`InstrumentAgent.state_handler_observatory_mode` (instrument_agent.py
lines 642-664); note the exception maps to DRIVER_DISCONNECT_FAILED here,
unlike the other RESET handlers. -/
def state_handler_observatory_mode_reset (disc : DisconnectOutcome) (s : DriverSup) :
    InstErrorCode × Option AgentState × DriverSup :=
  match disc with
  | DisconnectOutcome.exn => (InstErrorCode.DRIVER_DISCONNECT_FAILED, none, s)
  | DisconnectOutcome.reply success =>
    if success.is_ok then
      let s1 := condemn_driver s
      if s1.driver_pid = none then
        (InstErrorCode.OK, some AgentState.UNINITIALIZED, s1)
      else
        (InstErrorCode.AGENT_DEINIT_FAILED, some AgentState.INACTIVE, s1)
    else (success, none, s)

/-- Embedding of the RESET branch of
`InstrumentAgent.state_handler_direct_access_mode` (instrument_agent.py
lines 714-735). -/
def state_handler_direct_access_mode_reset (disc : DisconnectOutcome) (s : DriverSup) :
    InstErrorCode × Option AgentState × DriverSup :=
  match disc with
  | DisconnectOutcome.exn => (InstErrorCode.DRIVER_CONNECT_FAILED, none, s)
  | DisconnectOutcome.reply success =>
    if success.is_ok then
      let s1 := condemn_driver s
      if s1.driver_pid = none then
        (InstErrorCode.OK, some AgentState.UNINITIALIZED, s1)
      else
        (InstErrorCode.AGENT_DEINIT_FAILED, some AgentState.INACTIVE, s1)
    else (success, none, s)

/-- Invariant of the transaction manager used to establish the
exactly-once resolution discipline: queued deferred ids are recorded in
`enqueued` and bounded by the fresh supply, the queue never holds the same
deferred twice, every enqueued deferred is either still queued and never
fired or no longer queued and fired exactly once, and every logged
resolution is a grant `(OK, token)` or an acquisition timeout
`(TIMEOUT, None)`. -/
def TMInv (s : AgentTM) : Prop :=
  (∀ p ∈ s.pending_transactions, p.d ∈ s.enqueued) ∧
  (∀ d ∈ s.enqueued, d < s.next_deferred) ∧
  (∀ d ∈ fired_ids s, d < s.next_deferred) ∧
  (pending_ids s).Nodup ∧
  (∀ d ∈ s.enqueued,
    (d ∈ pending_ids s ∧ (fired_ids s).count d = 0) ∨
    (d ∉ pending_ids s ∧ (fired_ids s).count d = 1)) ∧
  (∀ r ∈ s.fired,
    (r.2.1 = InstErrorCode.OK ∧ r.2.2 ≠ none) ∨
    (r.2.1 = InstErrorCode.TIMEOUT ∧ r.2.2 = none))

theorem uuid_str_length (n : Nat) : (uuid_str n).length = 36 := by
  simp [uuid_str, String.length]

theorem start_transaction_of_free (e : Option Nat) (s : AgentTM)
    (h : s.transaction_id = none) :
    start_transaction e s =
      ({ s with
          transaction_id := some (uuid_str s.next_uuid)
          next_uuid := s.next_uuid + 1
          transaction_timeout_call := some ⟨s.next_call_id, clamp_exp s e⟩
          next_call_id := s.next_call_id + 1 },
        InstErrorCode.OK, some (uuid_str s.next_uuid)) := by
  unfold start_transaction
  rw [h]

theorem start_transaction_of_locked (e : Option Nat) (s : AgentTM) (t : String)
    (h : s.transaction_id = some t) :
    start_transaction e s = (s, InstErrorCode.LOCKED_RESOURCE, none) := by
  unfold start_transaction
  rw [h]

theorem TMInv_of_fields (s s1 : AgentTM)
    (h1 : s1.pending_transactions = s.pending_transactions)
    (h2 : s1.enqueued = s.enqueued)
    (h3 : s1.fired = s.fired)
    (h4 : s1.next_deferred = s.next_deferred)
    (hs : TMInv s) : TMInv s1 := by
  unfold TMInv pending_ids fired_ids at *
  rw [h1, h2, h3, h4]
  exact hs

theorem tm_inv_resolve (s s1 : AgentTM) (l1 l2 : List PendingTransaction)
    (p : PendingTransaction) (c : InstErrorCode) (t : Option String)
    (h : TMInv s) (hp : s.pending_transactions = l1 ++ p :: l2)
    (hshape : (c = InstErrorCode.OK ∧ t ≠ none) ∨ (c = InstErrorCode.TIMEOUT ∧ t = none))
    (h1 : s1.pending_transactions = l1 ++ l2)
    (h2 : s1.enqueued = s.enqueued)
    (h3 : s1.fired = s.fired ++ [(p.d, c, t)])
    (h4 : s1.next_deferred = s.next_deferred) :
    TMInv s1 := by
  obtain ⟨c1, c2, c3, c4, c5, c6⟩ := h
  have hpmem : p ∈ s.pending_transactions := by rw [hp]; simp
  have hpd_enq : p.d ∈ s.enqueued := c1 p hpmem
  have hpd_lt : p.d < s.next_deferred := c2 _ hpd_enq
  have hids : pending_ids s =
      l1.map (fun q => q.d) ++ p.d :: l2.map (fun q => q.d) := by
    simp [pending_ids, hp]
  have hids1 : pending_ids s1 = l1.map (fun q => q.d) ++ l2.map (fun q => q.d) := by
    simp [pending_ids, h1]
  have hfids1 : fired_ids s1 = fired_ids s ++ [p.d] := by
    simp [fired_ids, h3]
  have hnd := c4
  rw [hids] at hnd
  obtain ⟨nd1, nd2, disj⟩ := List.nodup_append.mp hnd
  have hpd_notin_l2 : p.d ∉ l2.map (fun q => q.d) := (List.nodup_cons.mp nd2).1
  have hpd_notin_l1 : p.d ∉ l1.map (fun q => q.d) := by
    intro hmem
    exact disj hmem (List.mem_cons_self _ _)
  refine ⟨?_, ?_, ?_, ?_, ?_, ?_⟩
  · intro q hq
    rw [h1] at hq
    rw [h2]
    refine c1 q ?_
    rw [hp]
    rcases List.mem_append.mp hq with hql | hqr
    · exact List.mem_append.mpr (Or.inl hql)
    · exact List.mem_append.mpr (Or.inr (List.mem_cons_of_mem _ hqr))
  · intro d hd
    rw [h2] at hd
    rw [h4]
    exact c2 d hd
  · intro d hd
    rw [hfids1] at hd
    rw [h4]
    rcases List.mem_append.mp hd with hdl | hdr
    · exact c3 d hdl
    · simp at hdr
      exact hdr ▸ hpd_lt
  · rw [hids1]
    exact List.nodup_append.mpr ⟨nd1, (List.nodup_cons.mp nd2).2,
      fun a ha hb => disj ha (List.mem_cons_of_mem _ hb)⟩
  · intro d hd
    rw [h2] at hd
    have hcount : (fired_ids s1).count d =
        (fired_ids s).count d + if d = p.d then 1 else 0 := by
      rw [hfids1, List.count_append]
      by_cases hdp : d = p.d <;> simp [hdp, List.count_singleton]
    rcases c5 d hd with ⟨hin, hcnt⟩ | ⟨hout, hcnt⟩
    · by_cases hdp : d = p.d
      · right
        constructor
        · rw [hids1]
          intro hmem
          rcases List.mem_append.mp hmem with hml | hmr
          · exact hpd_notin_l1 (hdp ▸ hml)
          · exact hpd_notin_l2 (hdp ▸ hmr)
        · rw [hcount, hcnt, if_pos hdp]
      · left
        constructor
        · rw [hids1]
          rw [hids] at hin
          rcases List.mem_append.mp hin with hml | hmr
          · exact List.mem_append.mpr (Or.inl hml)
          · rcases List.mem_cons.mp hmr with heq | hmr2
            · exact absurd heq hdp
            · exact List.mem_append.mpr (Or.inr hmr2)
        · rw [hcount, hcnt, if_neg hdp]
    · have hdp : d ≠ p.d := by
        intro heq
        apply hout
        rw [hids, heq]
        exact List.mem_append.mpr (Or.inr (List.mem_cons_self _ _))
      right
      constructor
      · rw [hids1]
        intro hmem
        apply hout
        rw [hids]
        rcases List.mem_append.mp hmem with hml | hmr
        · exact List.mem_append.mpr (Or.inl hml)
        · exact List.mem_append.mpr (Or.inr (List.mem_cons_of_mem _ hmr))
      · rw [hcount, hcnt, if_neg hdp]
  · intro r hr
    rw [h3] at hr
    rcases List.mem_append.mp hr with hrl | hrr
    · exact c6 r hrl
    · simp at hrr
      rw [hrr]
      exact hshape

theorem tm_inv_enqueue (s s1 : AgentTM) (entry : PendingTransaction)
    (h : TMInv s)
    (hd : entry.d = s.next_deferred)
    (h1 : s1.pending_transactions = s.pending_transactions ++ [entry])
    (h2 : s1.enqueued = s.enqueued ++ [s.next_deferred])
    (h3 : s1.fired = s.fired)
    (h4 : s1.next_deferred = s.next_deferred + 1) :
    TMInv s1 := by
  obtain ⟨c1, c2, c3, c4, c5, c6⟩ := h
  have hids1 : pending_ids s1 = pending_ids s ++ [s.next_deferred] := by
    simp [pending_ids, h1, hd]
  have hfresh_pending : s.next_deferred ∉ pending_ids s := by
    intro hmem
    obtain ⟨q, hq, hqd⟩ := List.mem_map.mp hmem
    exact absurd (hqd ▸ c2 _ (c1 q hq)) (lt_irrefl _)
  have hfresh_fired : s.next_deferred ∉ fired_ids s := by
    intro hmem
    exact absurd (c3 _ hmem) (lt_irrefl _)
  refine ⟨?_, ?_, ?_, ?_, ?_, ?_⟩
  · intro q hq
    rw [h1] at hq
    rw [h2]
    rcases List.mem_append.mp hq with hql | hqr
    · exact List.mem_append.mpr (Or.inl (c1 q hql))
    · simp at hqr
      rw [hqr, hd]
      simp
  · intro d hdm
    rw [h2] at hdm
    rw [h4]
    rcases List.mem_append.mp hdm with hdl | hdr
    · exact Nat.lt_succ_of_lt (c2 d hdl)
    · simp at hdr
      rw [hdr]
      exact Nat.lt_succ_self _
  · intro d hdm
    rw [show fired_ids s1 = fired_ids s from by simp [fired_ids, h3]] at hdm
    rw [h4]
    exact Nat.lt_succ_of_lt (c3 d hdm)
  · rw [hids1]
    exact List.nodup_append.mpr ⟨c4, List.nodup_singleton _,
      fun a ha hb => by simp at hb; exact hfresh_pending (hb ▸ ha)⟩
  · intro d hdm
    rw [h2] at hdm
    have hfc : fired_ids s1 = fired_ids s := by simp [fired_ids, h3]
    rcases List.mem_append.mp hdm with hdl | hdr
    · rcases c5 d hdl with ⟨hin, hcnt⟩ | ⟨hout, hcnt⟩
      · left
        exact ⟨by rw [hids1]; exact List.mem_append.mpr (Or.inl hin), by rw [hfc]; exact hcnt⟩
      · right
        refine ⟨?_, by rw [hfc]; exact hcnt⟩
        rw [hids1]
        intro hmem
        rcases List.mem_append.mp hmem with hml | hmr
        · exact hout hml
        · simp at hmr
          exact absurd (hmr ▸ c2 d hdl) (lt_irrefl _)
    · simp at hdr
      left
      refine ⟨by rw [hids1, hdr]; simp, ?_⟩
      rw [hfc, hdr]
      exact List.count_eq_zero.mpr hfresh_fired
  · intro r hr
    rw [h3] at hr
    exact c6 r hr

theorem end_transaction_no_current (t : String) (s : AgentTM)
    (hc : s.transaction_id = none) :
    end_transaction t s = (s, InstErrorCode.RESOURCE_NOT_LOCKED) := by
  unfold end_transaction
  rw [hc]

theorem end_transaction_mismatch (t cur : String) (s : AgentTM)
    (hc : s.transaction_id = some cur) (ht : t ≠ cur) :
    end_transaction t s = (s, InstErrorCode.LOCKED_RESOURCE) := by
  unfold end_transaction
  rw [hc]
  simp [ht]

theorem end_transaction_match_nil (cur : String) (s : AgentTM)
    (hc : s.transaction_id = some cur) (hp : s.pending_transactions = []) :
    end_transaction cur s =
      ({ s with
          transaction_id := none
          transaction_timed_out := false
          transaction_timeout_call := none },
        InstErrorCode.OK) := by
  unfold end_transaction
  rw [hc]
  simp [hp]

theorem end_transaction_match_cons (cur : String) (s : AgentTM)
    (p : PendingTransaction) (rest : List PendingTransaction)
    (hc : s.transaction_id = some cur) (hp : s.pending_transactions = p :: rest) :
    end_transaction cur s =
      ({ s with
          transaction_id := some (uuid_str s.next_uuid)
          transaction_timed_out := false
          transaction_timeout_call := some ⟨s.next_call_id, clamp_exp s (some p.exp_timeout)⟩
          pending_transactions := rest
          next_uuid := s.next_uuid + 1
          next_call_id := s.next_call_id + 1
          fired := s.fired ++ [(p.d, InstErrorCode.OK, some (uuid_str s.next_uuid))] },
        InstErrorCode.OK) := by
  unfold end_transaction
  rw [hc]
  simp only [if_pos rfl, hp]
  rw [start_transaction_of_free _ _ rfl]
  rfl

theorem remove_pending_of_not_found (d : Nat) (l : List PendingTransaction)
    (h : (remove_pending d l).2 = false) : (remove_pending d l).1 = l := by
  induction l with
  | nil => rfl
  | cons item rest ih =>
    by_cases hi : item.d = d
    · simp [remove_pending, hi] at h
    · simp only [remove_pending, if_neg hi] at h ⊢
      rw [ih h]

theorem remove_pending_spec (d : Nat) (l : List PendingTransaction)
    (h : (remove_pending d l).2 = true) :
    ∃ l1 p l2, l = l1 ++ p :: l2 ∧ p.d = d ∧ (remove_pending d l).1 = l1 ++ l2 := by
  induction l with
  | nil => simp [remove_pending] at h
  | cons item rest ih =>
    by_cases hi : item.d = d
    · exact ⟨[], item, rest, by simp, hi, by simp [remove_pending, hi]⟩
    · have h2 : (remove_pending d rest).2 = true := by
        simpa only [remove_pending, if_neg hi] using h
      obtain ⟨l1, p, l2, heq, hpd, hres⟩ := ih h2
      exact ⟨item :: l1, p, l2, by simp [heq], hpd,
        by simp only [remove_pending, if_neg hi]; simp [hres]⟩

theorem tm_inv_end (t : String) (s : AgentTM) (h : TMInv s) :
    TMInv (end_transaction t s).1 := by
  cases hc : s.transaction_id with
  | none => rw [end_transaction_no_current t s hc]; exact h
  | some cur =>
    by_cases ht : t = cur
    · subst ht
      cases hp : s.pending_transactions with
      | nil =>
        rw [end_transaction_match_nil t s hc hp]
        exact TMInv_of_fields s _ rfl rfl rfl rfl h
      | cons p rest =>
        rw [end_transaction_match_cons t s p rest hc hp]
        exact tm_inv_resolve s _ [] rest p InstErrorCode.OK (some (uuid_str s.next_uuid))
          h (by simpa using hp) (Or.inl ⟨rfl, by simp⟩) rfl rfl rfl rfl
    · rw [end_transaction_mismatch t cur s hc ht]
      exact h

theorem tm_inv_acq (d : Nat) (s : AgentTM) (h : TMInv s) :
    TMInv (acquisition_timeout d s) := by
  unfold acquisition_timeout
  cases hf : (remove_pending d s.pending_transactions).2
  · simp only [hf, if_neg Bool.false_ne_true]
    exact h
  · simp only [hf, if_pos rfl]
    obtain ⟨l1, p, l2, heq, hpd, hres⟩ := remove_pending_spec d s.pending_transactions hf
    exact tm_inv_resolve s _ l1 l2 p InstErrorCode.TIMEOUT none h heq
      (Or.inr ⟨rfl, rfl⟩) (by simp [fire, hres]) (by simp [fire])
      (by simp [fire, hpd]) (by simp [fire])

theorem tm_inv_request (a x : Option Nat) (req : String) (s : AgentTM) (h : TMInv s) :
    TMInv (request_transaction a x req s).1 := by
  unfold request_transaction
  cases hc : s.transaction_id with
  | none =>
    simp only []
    refine TMInv_of_fields s _ ?_ ?_ ?_ ?_ h <;>
      rw [start_transaction_of_free _ _ hc]
  | some t =>
    by_cases hacq : clamp_acq s a = 0
    · simp only [hacq, if_pos rfl]
      exact h
    · simp only [if_neg hacq]
      exact tm_inv_enqueue s _ _ h rfl rfl rfl rfl rfl

theorem tm_inv_exp (s : AgentTM) (h : TMInv s) : TMInv (transaction_expired s) := by
  unfold transaction_expired
  split
  · exact h
  · split
    · exact TMInv_of_fields s _ rfl rfl rfl rfl h
    · split
      · exact tm_inv_end _ _ (TMInv_of_fields s _ rfl rfl rfl rfl h)
      · exact TMInv_of_fields s _ rfl rfl rfl rfl h

theorem tm_inv_step (s : AgentTM) (e : TMEvent) (h : TMInv s) : TMInv (tm_step s e) := by
  cases e with
  | request a x r => exact tm_inv_request a x r s h
  | endTxn t => exact tm_inv_end t s h
  | acqFires d => exact tm_inv_acq d s h
  | expFires => exact tm_inv_exp s h

theorem tm_inv_init : TMInv initTM := by
  refine ⟨?_, ?_, ?_, ?_, ?_, ?_⟩ <;> simp [initTM, pending_ids, fired_ids]

theorem tm_inv_foldl (l : List TMEvent) (s : AgentTM) (h : TMInv s) :
    TMInv (List.foldl tm_step s l) := by
  induction l generalizing s with
  | nil => exact h
  | cons e rest ih => exact ih _ (tm_inv_step s e h)

theorem tm_inv_run (events : List TMEvent) : TMInv (tm_run events) :=
  tm_inv_foldl events initTM tm_inv_init

theorem request_transaction_of_free (a x : Option Nat) (req : String) (s : AgentTM)
    (h : s.transaction_id = none) :
    request_transaction a x req s =
      ({ s with
          transaction_id := some (uuid_str s.next_uuid)
          next_uuid := s.next_uuid + 1
          transaction_timeout_call := some ⟨s.next_call_id, clamp_exp s (some (clamp_exp s x))⟩
          next_call_id := s.next_call_id + 1 },
        ReqOutcome.immediate InstErrorCode.OK (some (uuid_str s.next_uuid))) := by
  simp only [request_transaction, h, start_transaction_of_free _ _ h]

theorem request_transaction_locked_nowait (a x : Option Nat) (req : String)
    (s : AgentTM) (t : String) (h : s.transaction_id = some t)
    (hacq : clamp_acq s a = 0) :
    request_transaction a x req s =
      (s, ReqOutcome.immediate InstErrorCode.LOCKED_RESOURCE none) := by
  simp [request_transaction, h, hacq]

theorem request_transaction_locked_wait (a x : Option Nat) (req : String)
    (s : AgentTM) (t : String) (h : s.transaction_id = some t)
    (hacq : clamp_acq s a ≠ 0) :
    request_transaction a x req s =
      ({ s with
          pending_transactions := s.pending_transactions ++
            [⟨s.next_deferred, ⟨s.next_call_id, clamp_acq s a⟩, clamp_exp s x, req⟩]
          next_call_id := s.next_call_id + 1
          next_deferred := s.next_deferred + 1
          enqueued := s.enqueued ++ [s.next_deferred] },
        ReqOutcome.deferredAcq s.next_deferred) := by
  simp [request_transaction, h, hacq]

theorem request_transaction_fired (a x : Option Nat) (req : String) (s : AgentTM) :
    (request_transaction a x req s).1.fired = s.fired := by
  cases hc : s.transaction_id with
  | none => simp [request_transaction, hc, start_transaction_of_free _ _ hc]
  | some t =>
    by_cases hacq : clamp_acq s a = 0 <;>
      simp [request_transaction, hc, hacq]

theorem fired_shape_end (t : String) (s : AgentTM)
    (r : Nat × InstErrorCode × Option String)
    (hr : r ∈ (end_transaction t s).1.fired) :
    r ∈ s.fired ∨ (r.2.1 = InstErrorCode.OK ∧ r.2.2 ≠ none) ∨
      (r.2.1 = InstErrorCode.TIMEOUT ∧ r.2.2 = none) := by
  cases hc : s.transaction_id with
  | none =>
    rw [end_transaction_no_current t s hc] at hr
    exact Or.inl hr
  | some cur =>
    by_cases ht : t = cur
    · subst ht
      cases hp : s.pending_transactions with
      | nil =>
        rw [end_transaction_match_nil t s hc hp] at hr
        exact Or.inl hr
      | cons p rest =>
        rw [end_transaction_match_cons t s p rest hc hp] at hr
        simp only [List.mem_append, List.mem_singleton] at hr
        rcases hr with hr | hr
        · exact Or.inl hr
        · right
          left
          rw [hr]
          exact ⟨rfl, by simp⟩
    · rw [end_transaction_mismatch t cur s hc ht] at hr
      exact Or.inl hr

theorem fired_shape_step (s : AgentTM) (e : TMEvent)
    (r : Nat × InstErrorCode × Option String)
    (hr : r ∈ (tm_step s e).fired) :
    r ∈ s.fired ∨ (r.2.1 = InstErrorCode.OK ∧ r.2.2 ≠ none) ∨
      (r.2.1 = InstErrorCode.TIMEOUT ∧ r.2.2 = none) := by
  cases e with
  | request a x req =>
    rw [show tm_step s (TMEvent.request a x req) = (request_transaction a x req s).1 from rfl,
      request_transaction_fired] at hr
    exact Or.inl hr
  | endTxn t => exact fired_shape_end t s r hr
  | acqFires d =>
    revert hr
    show r ∈ (acquisition_timeout d s).fired → _
    unfold acquisition_timeout
    by_cases hf : (remove_pending d s.pending_transactions).2 = true
    · simp only [hf, if_pos rfl]
      intro hr
      simp [fire] at hr
      rcases hr with hr | hr
      · exact Or.inl hr
      · right
        right
        rw [hr]
        exact ⟨rfl, rfl⟩
    · simp only [if_neg hf]
      exact fun hr => Or.inl hr
  | expFires =>
    revert hr
    show r ∈ (transaction_expired s).fired → _
    unfold transaction_expired
    split
    · exact fun hr => Or.inl hr
    · split
      · exact fun hr => Or.inl hr
      · split
        · exact fun hr =>
            fired_shape_end _ { s with transaction_timeout_call := none } r hr
        · exact fun hr => Or.inl hr

theorem fired_shape_foldl (l : List TMEvent) (s : AgentTM)
    (r : Nat × InstErrorCode × Option String)
    (hr : r ∈ (List.foldl tm_step s l).fired) :
    r ∈ s.fired ∨ (r.2.1 = InstErrorCode.OK ∧ r.2.2 ≠ none) ∨
      (r.2.1 = InstErrorCode.TIMEOUT ∧ r.2.2 = none) := by
  induction l generalizing s with
  | nil => exact Or.inl hr
  | cons e rest ih =>
    rcases ih (tm_step s e) hr with hm | hs
    · exact fired_shape_step s e r hm
    · exact Or.inr hs

/-- C1: for every sequence of `_request_transaction` and `_end_transaction`
calls (acquisition timers may fire; no expiration firing), at most one
transaction token is current, the pending FIFO never holds the same
acquisition twice, and every enqueued pending acquisition is resolved
exactly once: either it is still queued and its deferred has never fired,
or it has left the queue and its deferred has fired exactly once — with a
grant `(OK, token)` at an `_end_transaction` or `(TIMEOUT, None)` from its
acquisition timer, never both and never twice. -/
theorem claim_C1 (events : List TMEvent)
    (hno : ∀ e ∈ events, e ≠ TMEvent.expFires) :
    (∀ t1 t2, (tm_run events).transaction_id = some t1 →
      (tm_run events).transaction_id = some t2 → t1 = t2) ∧
    (pending_ids (tm_run events)).Nodup ∧
    (∀ d ∈ (tm_run events).enqueued,
      (d ∈ pending_ids (tm_run events) ∧ (fired_ids (tm_run events)).count d = 0) ∨
      (d ∉ pending_ids (tm_run events) ∧ (fired_ids (tm_run events)).count d = 1)) ∧
    (∀ r ∈ (tm_run events).fired,
      (r.2.1 = InstErrorCode.OK ∧ r.2.2 ≠ none) ∨
      (r.2.1 = InstErrorCode.TIMEOUT ∧ r.2.2 = none)) := by
  obtain ⟨c1, c2, c3, c4, c5, c6⟩ := tm_inv_run events
  refine ⟨?_, c4, c5, c6⟩
  intro t1 t2 h1 h2
  rw [h1] at h2
  exact Option.some.inj h2

theorem claim_C1_witness :
    (∀ e ∈ ([TMEvent.request (some 10) none "a", TMEvent.request (some 10) none "b",
        TMEvent.endTxn (uuid_str 0)] : List TMEvent), e ≠ TMEvent.expFires) ∧
    (pending_ids (tm_run [TMEvent.request (some 10) none "a",
        TMEvent.request (some 10) none "b", TMEvent.endTxn (uuid_str 0)])).Nodup :=
  ⟨by decide,
    (claim_C1 [TMEvent.request (some 10) none "a", TMEvent.request (some 10) none "b",
      TMEvent.endTxn (uuid_str 0)] (by decide)).2.1⟩

/-- C2: `_request_transaction` behaves by cases.  If no transaction is
current, a new one is started immediately (fresh token, expiration timer
armed) and the deferred resolves synchronously with `(OK, token)`.  If a
transaction is current and the clamped acquisition timeout is 0, it
resolves synchronously with `(LOCKED_RESOURCE, None)` and the state
(including the pending queue) is unchanged.  Otherwise the request is
appended at the back of the pending queue with an armed acquisition timer,
and whenever the queued deferred is later resolved, the value is either a
grant `(OK, token)` or `(TIMEOUT, None)`. -/
theorem claim_C2 (a x : Option Nat) (req : String) (s : AgentTM)
    (hfresh : ∀ r ∈ s.fired, r.1 < s.next_deferred) :
    (s.transaction_id = none →
      request_transaction a x req s =
        ({ s with
            transaction_id := some (uuid_str s.next_uuid)
            next_uuid := s.next_uuid + 1
            transaction_timeout_call :=
              some ⟨s.next_call_id, clamp_exp s (some (clamp_exp s x))⟩
            next_call_id := s.next_call_id + 1 },
          ReqOutcome.immediate InstErrorCode.OK (some (uuid_str s.next_uuid)))) ∧
    (∀ t, s.transaction_id = some t → clamp_acq s a = 0 →
      request_transaction a x req s =
        (s, ReqOutcome.immediate InstErrorCode.LOCKED_RESOURCE none)) ∧
    (∀ t, s.transaction_id = some t → clamp_acq s a ≠ 0 →
      request_transaction a x req s =
        ({ s with
            pending_transactions := s.pending_transactions ++
              [⟨s.next_deferred, ⟨s.next_call_id, clamp_acq s a⟩, clamp_exp s x, req⟩]
            next_call_id := s.next_call_id + 1
            next_deferred := s.next_deferred + 1
            enqueued := s.enqueued ++ [s.next_deferred] },
          ReqOutcome.deferredAcq s.next_deferred) ∧
      (∀ more c t2,
        (s.next_deferred, c, t2) ∈
          (List.foldl tm_step (request_transaction a x req s).1 more).fired →
        (c = InstErrorCode.OK ∧ t2 ≠ none) ∨
        (c = InstErrorCode.TIMEOUT ∧ t2 = none))) := by
  refine ⟨fun h => request_transaction_of_free a x req s h,
    fun t h hacq => request_transaction_locked_nowait a x req s t h hacq,
    fun t h hacq => ⟨request_transaction_locked_wait a x req s t h hacq, ?_⟩⟩
  intro more c t2 hmem
  rcases fired_shape_foldl more _ _ hmem with hin | hs
  · rw [request_transaction_fired] at hin
    exact absurd (hfresh _ hin) (lt_irrefl _)
  · exact hs

theorem claim_C2_witness :
    (∀ r ∈ (tm_run [TMEvent.request none none "a"]).fired,
        r.1 < (tm_run [TMEvent.request none none "a"]).next_deferred) ∧
    request_transaction (some 0) (some 10) "b" (tm_run [TMEvent.request none none "a"]) =
      (tm_run [TMEvent.request none none "a"],
        ReqOutcome.immediate InstErrorCode.LOCKED_RESOURCE none) :=
  ⟨by decide,
    (claim_C2 (some 0) (some 10) "b" (tm_run [TMEvent.request none none "a"])
      (by decide)).2.1 (uuid_str 0) (by decide) (by decide)⟩

/-- C3: `_end_transaction tid` returns OK when `tid` equals the current
token, cancelling the expiration timer and clearing the transaction; if
the pending queue is non-empty it additionally pops the head, cancels its
acquisition timer, starts a new transaction with that entry's stored
expiration timeout, and resolves that entry's deferred with
`(OK, newToken)`.  With no current transaction it returns
RESOURCE_NOT_LOCKED; with a current transaction and a mismatched `tid`
(for example the empty string) it returns LOCKED_RESOURCE and leaves the
state completely unchanged. -/
theorem claim_C3 (tid : String) (s : AgentTM) :
    (∀ cur, s.transaction_id = some cur → tid = cur →
      (end_transaction tid s).2 = InstErrorCode.OK ∧
      (s.pending_transactions = [] →
        (end_transaction tid s).1 =
          { s with
              transaction_id := none
              transaction_timed_out := false
              transaction_timeout_call := none }) ∧
      (∀ p rest, s.pending_transactions = p :: rest →
        (end_transaction tid s).1 =
          { s with
              transaction_id := some (uuid_str s.next_uuid)
              transaction_timed_out := false
              transaction_timeout_call :=
                some ⟨s.next_call_id, clamp_exp s (some p.exp_timeout)⟩
              pending_transactions := rest
              next_uuid := s.next_uuid + 1
              next_call_id := s.next_call_id + 1
              fired := s.fired ++
                [(p.d, InstErrorCode.OK, some (uuid_str s.next_uuid))] })) ∧
    (s.transaction_id = none →
      end_transaction tid s = (s, InstErrorCode.RESOURCE_NOT_LOCKED)) ∧
    (∀ cur, s.transaction_id = some cur → tid ≠ cur →
      end_transaction tid s = (s, InstErrorCode.LOCKED_RESOURCE)) := by
  refine ⟨?_, fun h => end_transaction_no_current tid s h,
    fun cur h ht => end_transaction_mismatch tid cur s h ht⟩
  intro cur hc ht
  subst ht
  refine ⟨?_, ?_, ?_⟩
  · cases hp : s.pending_transactions with
    | nil => rw [end_transaction_match_nil tid s hc hp]
    | cons p rest => rw [end_transaction_match_cons tid s p rest hc hp]
  · intro hp
    rw [end_transaction_match_nil tid s hc hp]
  · intro p rest hp
    rw [end_transaction_match_cons tid s p rest hc hp]

theorem claim_C3_witness :
    ((tm_run [TMEvent.request none none "a"]).transaction_id = some (uuid_str 0)) ∧
    end_transaction "" (tm_run [TMEvent.request none none "a"]) =
      (tm_run [TMEvent.request none none "a"], InstErrorCode.LOCKED_RESOURCE) :=
  ⟨by decide,
    (claim_C3 "" (tm_run [TMEvent.request none none "a"])).2.2 (uuid_str 0)
      (by decide) (by decide)⟩

/-- C4: when the expiration timer fires while the in-protected-function
flag is true, the transaction is not ended: only the deferred-expiry flag
is set (everything else unchanged).  The transaction is then ended by the
wrapper's cleanup step once the protected operation completes, whatever
token the operation was called with.  When the timer fires while no
protected operation is executing and a transaction is current, the
transaction is ended immediately via `_end_transaction`: with an empty
queue the lock becomes free, and with a non-empty queue the head waiter is
granted the fresh token at once. -/
theorem claim_C4 (s : AgentTM) :
    (∀ c, s.transaction_timeout_call = some c → s.in_protected_function = true →
      transaction_expired s =
        { s with transaction_timeout_call := none, transaction_timed_out := true }) ∧
    (∀ tid cur, s.transaction_timed_out = true → s.transaction_id = some cur →
      transaction_cleanup tid s =
        { (end_transaction cur s).1 with in_protected_function := false }) ∧
    (∀ c cur, s.transaction_timeout_call = some c →
      s.in_protected_function = false → s.transaction_id = some cur →
      transaction_expired s =
        (end_transaction cur { s with transaction_timeout_call := none }).1 ∧
      (s.pending_transactions = [] → (transaction_expired s).transaction_id = none) ∧
      (∀ p rest, s.pending_transactions = p :: rest →
        (transaction_expired s).transaction_id = some (uuid_str s.next_uuid) ∧
        (transaction_expired s).pending_transactions = rest ∧
        (p.d, InstErrorCode.OK, some (uuid_str s.next_uuid)) ∈
          (transaction_expired s).fired)) := by
  refine ⟨?_, ?_, ?_⟩
  · intro c hc hprot
    unfold transaction_expired
    rw [hc]
    simp [hprot]
  · intro tid cur htimed hcur
    unfold transaction_cleanup
    rw [htimed, hcur]
    simp
  · intro c cur hc hprot hcur
    have he : transaction_expired s =
        (end_transaction cur { s with transaction_timeout_call := none }).1 := by
      unfold transaction_expired
      rw [hc]
      simp [hprot, hcur]
    refine ⟨he, ?_, ?_⟩
    · intro hp
      rw [he, end_transaction_match_nil cur { s with transaction_timeout_call := none }
        hcur hp]
    · intro p rest hp
      rw [he, end_transaction_match_cons cur { s with transaction_timeout_call := none }
        p rest hcur hp]
      refine ⟨rfl, rfl, ?_⟩
      simp

theorem claim_C4_witness :
    ((tm_run [TMEvent.request none none "a", TMEvent.request (some 10) none "b"]
        ).transaction_timeout_call = some ⟨0, 300⟩) ∧
    ((tm_run [TMEvent.request none none "a", TMEvent.request (some 10) none "b"]
        ).in_protected_function = false) ∧
    ((tm_run [TMEvent.request none none "a", TMEvent.request (some 10) none "b"]
        ).transaction_id = some (uuid_str 0)) ∧
    (transaction_expired (tm_run [TMEvent.request none none "a",
        TMEvent.request (some 10) none "b"])).transaction_id = some (uuid_str 1) :=
  ⟨by decide, by decide, by decide,
    ((claim_C4 (tm_run [TMEvent.request none none "a",
        TMEvent.request (some 10) none "b"])).2.2 ⟨0, 300⟩ (uuid_str 0)
      (by decide) (by decide) (by decide)).2.2
      ⟨0, ⟨1, 10⟩, 300, "b"⟩ [] (by decide) |>.1⟩

/-- C5: `_verify_transaction tid optype` returns by cases: a `tid` other
than `'create'` and `'none'` whose length is not 36 yields
INVALID_TRANSACTION_ID before any other check; `'create'` starts an
implicit transaction with the default expiration timeout and no waiting,
returning OK on success and LOCKED_RESOURCE on any non-OK outcome;
`'none'` returns OK exactly when no transaction is current and `optype`
is `'get'`, otherwise LOCKED_RESOURCE; a `tid` equal to the current token
returns OK; any other 36-character `tid` returns LOCKED_RESOURCE.  (The
hypothesis that any current token has length 36 holds for every token the
code generates, see `uuid_str_length`.) -/
theorem claim_C5 (tid optype : String) (s : AgentTM)
    (htok : ∀ t, s.transaction_id = some t → t.length = 36) :
    (tid ≠ "create" → tid ≠ "none" → tid.length ≠ 36 →
      verify_transaction tid optype s = (s, InstErrorCode.INVALID_TRANSACTION_ID)) ∧
    (tid = "create" → s.transaction_id = none →
      verify_transaction tid optype s =
        ((start_transaction (some s.default_exp_timeout) s).1, InstErrorCode.OK)) ∧
    (tid = "create" → s.transaction_id ≠ none →
      verify_transaction tid optype s = (s, InstErrorCode.LOCKED_RESOURCE)) ∧
    (tid = "none" → s.transaction_id = none → optype = "get" →
      verify_transaction tid optype s = (s, InstErrorCode.OK)) ∧
    (tid = "none" → ¬(s.transaction_id = none ∧ optype = "get") →
      verify_transaction tid optype s = (s, InstErrorCode.LOCKED_RESOURCE)) ∧
    (∀ t, s.transaction_id = some t → tid = t →
      verify_transaction tid optype s = (s, InstErrorCode.OK)) ∧
    (tid.length = 36 → s.transaction_id ≠ some tid →
      verify_transaction tid optype s = (s, InstErrorCode.LOCKED_RESOURCE)) := by
  refine ⟨?_, ?_, ?_, ?_, ?_, ?_, ?_⟩
  · intro h1 h2 h3
    unfold verify_transaction
    rw [if_pos ⟨h1, h2, h3⟩]
  · intro hcr hfree
    subst hcr
    unfold verify_transaction
    rw [start_transaction_of_free _ _ hfree]
    simp [InstErrorCode.is_ok]
  · intro hcr hlocked
    subst hcr
    cases hcc : s.transaction_id with
    | none => exact absurd hcc hlocked
    | some t =>
      unfold verify_transaction
      rw [start_transaction_of_locked _ _ _ hcc]
      simp [InstErrorCode.is_ok]
  · intro hnn hfree hget
    subst hnn
    unfold verify_transaction
    simp [hfree, hget]
  · intro hnn hother
    subst hnn
    unfold verify_transaction
    have hne : ¬(s.transaction_id = some "none") := by
      cases hcc : s.transaction_id with
      | none => simp
      | some t =>
        have hlen := htok t hcc
        intro hx
        rw [Option.some.inj hx] at hlen
        exact absurd hlen (by decide)
    rw [if_neg (by decide : ¬(("none" : String) ≠ "create" ∧
      ("none" : String) ≠ "none" ∧ ("none" : String).length ≠ 36))]
    rw [if_neg (by decide : ¬("none" : String) = "create")]
    rw [if_neg (fun h => hother ⟨h.2.1, h.2.2⟩)]
    rw [if_neg hne]
  · intro t hcc htt
    subst htt
    have hlen := htok tid hcc
    have hncr : tid ≠ "create" := by
      intro hx
      rw [hx] at hlen
      exact absurd hlen (by decide)
    have hnn : tid ≠ "none" := by
      intro hx
      rw [hx] at hlen
      exact absurd hlen (by decide)
    unfold verify_transaction
    simp [hncr, hnn, hlen, hcc]
  · intro hlen hnc
    have hncr : tid ≠ "create" := by
      intro hx
      rw [hx] at hlen
      exact absurd hlen (by decide)
    have hnn : tid ≠ "none" := by
      intro hx
      rw [hx] at hlen
      exact absurd hlen (by decide)
    unfold verify_transaction
    simp [hncr, hnn, hlen, hnc]

theorem claim_C5_witness :
    verify_transaction "abc" "get" initTM =
      (initTM, InstErrorCode.INVALID_TRANSACTION_ID) :=
  (claim_C5 "abc" "get" initTM (fun t h => Option.noConfusion h)).1
    (by decide) (by decide) (by decide)

/-- C6 (code evaluated at the failing input): when `_verify_transaction`
fails inside `op_execute_observatory` — here a 1-character transaction id,
rejected as INVALID_TRANSACTION_ID — the handler replies with the failure,
but the early return bypasses the unconditional finally cleanup, so the
in-protected-function flag is left `true` after the reply instead of being
cleared as the claim states. -/
theorem claim_C6_eval :
    (op_execute_observatory "x" (fun s => BodyOutcome.ok InstErrorCode.OK none s)
        initTM).reply =
      some { success := some InstErrorCode.INVALID_TRANSACTION_ID, result := none, transaction_id := none } ∧
    (op_execute_observatory "x" (fun s => BodyOutcome.ok InstErrorCode.OK none s)
        initTM).state.in_protected_function = true := by
  decide

/-- C7 (counterexample): in `op_execute_observatory` the except clause
re-raises after recording UNKNOWN_ERROR, so a body exception escapes to
the transport layer after the finally cleanup and the handler terminates
without sending any reply — contradicting the claim that every protected
operation converts body failures to UNKNOWN_ERROR and still replies. -/
theorem claim_C7_counterexample :
    (op_execute_observatory "create" (fun s => BodyOutcome.exn s) initTM).reply =
      none ∧
    (op_execute_observatory "create" (fun s => BodyOutcome.exn s) initTM).raised =
      true := by
  decide

/-- C7 (amended): when the transaction verify step succeeds, a body
exception in `op_execute_observatory` escapes as a transport-level fault
and no reply is sent (the re-raise follows the finally cleanup), while in
`op_get_device_metadata` — whose except clause does not re-raise — the
reply is still sent, but its success field is the initial `None` rather
than UNKNOWN_ERROR, because the exception skips the else branch that would
copy the local result code into the reply. -/
theorem claim_C7_amended (tid : String) (agent_state : AgentState)
    (g : AgentTM → AgentTM) (s0 : AgentTM)
    (hv : (verify_transaction tid "execute"
      { s0 with in_protected_function := true }).2.is_error = false)
    (hw : (verify_transaction tid "get"
      { s0 with in_protected_function := true }).2.is_error = false)
    (hst : agent_state = AgentState.OBSERVATORY_MODE ∨
      agent_state = AgentState.IDLE ∨ agent_state = AgentState.STOPPED) :
    ((op_execute_observatory tid (fun s => BodyOutcome.exn (g s)) s0).reply = none ∧
      (op_execute_observatory tid (fun s => BodyOutcome.exn (g s)) s0).raised = true) ∧
    ((op_get_device_metadata tid agent_state (fun s => BodyOutcome.exn (g s))
        s0).raised = false ∧
      (op_get_device_metadata tid agent_state (fun s => BodyOutcome.exn (g s))
        s0).reply =
        some { success := none, result := none, transaction_id := (verify_transaction tid "get" { s0 with in_protected_function := true }).1.transaction_id }) := by
  have hstate : ¬(agent_state ≠ AgentState.OBSERVATORY_MODE ∧
      agent_state ≠ AgentState.IDLE ∧ agent_state ≠ AgentState.STOPPED) := by
    rcases hst with h | h | h <;> subst h <;> simp
  refine ⟨⟨?_, ?_⟩, ?_, ?_⟩
  · simp [op_execute_observatory, hv]
  · simp [op_execute_observatory, hv]
  · simp [op_get_device_metadata, hw, hstate]
  · simp [op_get_device_metadata, hw, hstate]

theorem claim_C7_amended_witness :
    ((verify_transaction "create" "execute"
      { initTM with in_protected_function := true }).2.is_error = false) ∧
    ((verify_transaction "create" "get"
      { initTM with in_protected_function := true }).2.is_error = false) ∧
    (op_get_device_metadata "create" AgentState.IDLE
      (fun s => BodyOutcome.exn s) initTM).raised = false :=
  ⟨by decide, by decide,
    ((claim_C7_amended "create" AgentState.IDLE (fun s => s) initTM
      (by decide) (by decide) (Or.inr (Or.inl rfl))).2).1⟩

/-- C8 (code evaluated at the failing input): `op_get_device` invoked with
transaction id `'create'` while the agent is INACTIVE: the verify step
implicitly grants a transaction, the state check then replies
INCORRECT_STATE through an early return that bypasses the finally
cleanup — the implicit transaction stays current after the reply and the
in-protected-function flag stays set, contradicting the claim that the
implicit transaction is ended before the operation replies on every
outcome. -/
theorem claim_C8_eval :
    (op_get_device "create" AgentState.INACTIVE
        (fun s => BodyOutcome.ok InstErrorCode.OK none s) initTM).reply =
      some { success := some InstErrorCode.INCORRECT_STATE, result := none, transaction_id := some (uuid_str 0) } ∧
    (op_get_device "create" AgentState.INACTIVE
        (fun s => BodyOutcome.ok InstErrorCode.OK none s) initTM).state.transaction_id =
      some (uuid_str 0) ∧
    (op_get_device "create" AgentState.INACTIVE
        (fun s => BodyOutcome.ok InstErrorCode.OK none s)
        initTM).state.in_protected_function = true := by
  decide

/-- C9 (counterexample): the RESET handler of ObservatoryMode maps a
disconnect exception to DRIVER_DISCONNECT_FAILED, not to
DRIVER_CONNECT_FAILED as the claim's "uniformly" requires (the handler
does stay in the current state: no next state is produced). -/
theorem claim_C9_counterexample :
    (state_handler_observatory_mode_reset DisconnectOutcome.exn
        (⟨some 1, some 2, []⟩ : DriverSup)).1 =
      InstErrorCode.DRIVER_DISCONNECT_FAILED ∧
    InstErrorCode.DRIVER_DISCONNECT_FAILED ≠ InstErrorCode.DRIVER_CONNECT_FAILED ∧
    (state_handler_observatory_mode_reset DisconnectOutcome.exn
        (⟨some 1, some 2, []⟩ : DriverSup)).2.1 = none := by
  decide

/-- C9 (amended): the RESET handlers of Idle, Stopped and DirectAccessMode
map a disconnect exception to DRIVER_CONNECT_FAILED while ObservatoryMode
maps it to DRIVER_DISCONNECT_FAILED; in all four the handler stays in the
current state on exception, and only on a successful disconnect condemns
the driver, transitioning to Uninitialized when the driver handle is
cleared and otherwise falling back to Inactive with AGENT_DEINIT_FAILED. -/
theorem claim_C9_amended (s : DriverSup) (c : InstErrorCode) :
    (state_handler_idle_reset DisconnectOutcome.exn s =
      (InstErrorCode.DRIVER_CONNECT_FAILED, none, s)) ∧
    (state_handler_stopped_reset DisconnectOutcome.exn s =
      (InstErrorCode.DRIVER_CONNECT_FAILED, none, s)) ∧
    (state_handler_direct_access_mode_reset DisconnectOutcome.exn s =
      (InstErrorCode.DRIVER_CONNECT_FAILED, none, s)) ∧
    (state_handler_observatory_mode_reset DisconnectOutcome.exn s =
      (InstErrorCode.DRIVER_DISCONNECT_FAILED, none, s)) ∧
    (c.is_ok = true →
      (state_handler_idle_reset (DisconnectOutcome.reply c) s =
        (if (condemn_driver s).driver_pid = none then
          (InstErrorCode.OK, some AgentState.UNINITIALIZED, condemn_driver s)
        else
          (InstErrorCode.AGENT_DEINIT_FAILED, some AgentState.INACTIVE,
            condemn_driver s))) ∧
      (state_handler_stopped_reset (DisconnectOutcome.reply c) s =
        (if (condemn_driver s).driver_pid = none then
          (InstErrorCode.OK, some AgentState.UNINITIALIZED, condemn_driver s)
        else
          (InstErrorCode.AGENT_DEINIT_FAILED, some AgentState.INACTIVE,
            condemn_driver s))) ∧
      (state_handler_observatory_mode_reset (DisconnectOutcome.reply c) s =
        (if (condemn_driver s).driver_pid = none then
          (InstErrorCode.OK, some AgentState.UNINITIALIZED, condemn_driver s)
        else
          (InstErrorCode.AGENT_DEINIT_FAILED, some AgentState.INACTIVE,
            condemn_driver s))) ∧
      (state_handler_direct_access_mode_reset (DisconnectOutcome.reply c) s =
        (if (condemn_driver s).driver_pid = none then
          (InstErrorCode.OK, some AgentState.UNINITIALIZED, condemn_driver s)
        else
          (InstErrorCode.AGENT_DEINIT_FAILED, some AgentState.INACTIVE,
            condemn_driver s)))) := by
  refine ⟨rfl, rfl, rfl, rfl, ?_⟩
  intro hok
  refine ⟨?_, ?_, ?_, ?_⟩
  · simp [state_handler_idle_reset, hok]
  · simp [state_handler_stopped_reset, hok]
  · simp [state_handler_observatory_mode_reset, hok]
  · simp [state_handler_direct_access_mode_reset, hok]

theorem claim_C9_amended_witness :
    InstErrorCode.is_ok InstErrorCode.OK = true ∧
    state_handler_observatory_mode_reset (DisconnectOutcome.reply InstErrorCode.OK)
        (⟨some 3, some 4, []⟩ : DriverSup) =
      (if (condemn_driver (⟨some 3, some 4, []⟩ : DriverSup)).driver_pid = none then
        (InstErrorCode.OK, some AgentState.UNINITIALIZED,
          condemn_driver (⟨some 3, some 4, []⟩ : DriverSup))
      else
        (InstErrorCode.AGENT_DEINIT_FAILED, some AgentState.INACTIVE,
          condemn_driver (⟨some 3, some 4, []⟩ : DriverSup))) :=
  ⟨by decide,
    ((claim_C9_amended (⟨some 3, some 4, []⟩ : DriverSup)
      InstErrorCode.OK).2.2.2.2 (by decide)).2.2.1⟩

/-- C10: `_condemn_driver` always leaves `_driver_pid = None` (both when a
driver was active and when none was), so in every RESET handler that
reaches the condemn step after a successful disconnect the
`_driver_pid == None` check succeeds, the next state is always
Uninitialized with result OK, and the AGENT_DEINIT_FAILED fallback to
Inactive is unreachable: no input at all makes any of the four RESET
handlers produce Inactive as the next state. -/
theorem claim_C10 (s : DriverSup) (c : InstErrorCode) (hok : c.is_ok = true) :
    (condemn_driver s).driver_pid = none ∧
    (state_handler_idle_reset (DisconnectOutcome.reply c) s =
      (InstErrorCode.OK, some AgentState.UNINITIALIZED, condemn_driver s)) ∧
    (state_handler_stopped_reset (DisconnectOutcome.reply c) s =
      (InstErrorCode.OK, some AgentState.UNINITIALIZED, condemn_driver s)) ∧
    (state_handler_observatory_mode_reset (DisconnectOutcome.reply c) s =
      (InstErrorCode.OK, some AgentState.UNINITIALIZED, condemn_driver s)) ∧
    (state_handler_direct_access_mode_reset (DisconnectOutcome.reply c) s =
      (InstErrorCode.OK, some AgentState.UNINITIALIZED, condemn_driver s)) ∧
    (∀ disc s1, (state_handler_idle_reset disc s1).2.1 ≠ some AgentState.INACTIVE) ∧
    (∀ disc s1, (state_handler_stopped_reset disc s1).2.1 ≠ some AgentState.INACTIVE) ∧
    (∀ disc s1,
      (state_handler_observatory_mode_reset disc s1).2.1 ≠ some AgentState.INACTIVE) ∧
    (∀ disc s1,
      (state_handler_direct_access_mode_reset disc s1).2.1 ≠ some AgentState.INACTIVE) := by
  have hcondemn : ∀ s2 : DriverSup, (condemn_driver s2).driver_pid = none := by
    intro s2
    unfold condemn_driver
    cases h : s2.driver_pid
    · exact h
    · rfl
  refine ⟨hcondemn s, ?_, ?_, ?_, ?_, ?_, ?_, ?_, ?_⟩
  · simp [state_handler_idle_reset, hok, hcondemn s]
  · simp [state_handler_stopped_reset, hok, hcondemn s]
  · simp [state_handler_observatory_mode_reset, hok, hcondemn s]
  · simp [state_handler_direct_access_mode_reset, hok, hcondemn s]
  · intro disc s1
    cases disc with
    | exn => simp [state_handler_idle_reset]
    | reply c2 =>
      by_cases hok2 : c2.is_ok = true
      · simp [state_handler_idle_reset, hok2, hcondemn s1]
      · simp [state_handler_idle_reset, hok2]
  · intro disc s1
    cases disc with
    | exn => simp [state_handler_stopped_reset]
    | reply c2 =>
      by_cases hok2 : c2.is_ok = true
      · simp [state_handler_stopped_reset, hok2, hcondemn s1]
      · simp [state_handler_stopped_reset, hok2]
  · intro disc s1
    cases disc with
    | exn => simp [state_handler_observatory_mode_reset]
    | reply c2 =>
      by_cases hok2 : c2.is_ok = true
      · simp [state_handler_observatory_mode_reset, hok2, hcondemn s1]
      · simp [state_handler_observatory_mode_reset, hok2]
  · intro disc s1
    cases disc with
    | exn => simp [state_handler_direct_access_mode_reset]
    | reply c2 =>
      by_cases hok2 : c2.is_ok = true
      · simp [state_handler_direct_access_mode_reset, hok2, hcondemn s1]
      · simp [state_handler_direct_access_mode_reset, hok2]

theorem claim_C10_witness :
    InstErrorCode.is_ok InstErrorCode.OK = true ∧
    state_handler_idle_reset (DisconnectOutcome.reply InstErrorCode.OK)
        (⟨some 5, some 6, []⟩ : DriverSup) =
      (InstErrorCode.OK, some AgentState.UNINITIALIZED,
        condemn_driver (⟨some 5, some 6, []⟩ : DriverSup)) :=
  ⟨by decide,
    (claim_C10 (⟨some 5, some 6, []⟩ : DriverSup) InstErrorCode.OK (by decide)).2.1⟩

end InstrumentAgent
